import Mathlib

/-!
Shallow embedding of `src/app.py` (Streamlit dashboard "Analisis Air Minum
Jawa Barat"): the data model (CSV cells, rows, data frames), the indicator
remapping, the rule-based assessment panel, the control flow of the
visualization panel and of the ML-inference panel, and the artifact
loader.  Definitions are translated from the Python source; theorems below
settle the specification claims.
-/

/-- A CSV / pandas cell: a string, a number, or a missing value (NaN).
Numbers are modelled as integers because the indicator columns the program
touches hold 0/1 values. -/
inductive Cell where
  | str : String → Cell
  | num : Int → Cell
  | na : Cell
deriving DecidableEq

/-- A data-frame row: an association list from column name to cell. -/
abbrev Row := List (String × Cell)

/-- A data frame: a list of rows.  The column list of the frame is carried
separately (mirroring `df.columns`). -/
abbrev DF := List Row

/-- Reading `df_filtered[col]` for one row: looking up a column in a row; a missing
entry reads as NaN. -/
def cellOf (r : Row) (col : String) : Cell :=
  (r.lookup col).getD Cell.na

/-- The remapping `series.map({"ADA": 1, "TIDAK": 0}).fillna(0)` applied to one cell
(lines 98 and 176 of `app.py`).  `pandas.Series.map` with a dict sends any
value that is not a key of the dict — including numeric `0`/`1`, since the
keys are the strings `"ADA"`/`"TIDAK"` — to NaN, and `fillna(0)` turns that
NaN into `0`.  Both the visualization panel (line 98) and the rule-based
assessment panel (line 176, with a final no-op `astype(int)`) apply exactly
this transformation. -/
def mapIndicator (c : Cell) : Int :=
  match c with
  | Cell.str "ADA" => 1
  | Cell.str "TIDAK" => 0
  | _ => 0

/-- Whether `needle` is an initial segment of `hay` (character lists). -/
def charsLead : List Char → List Char → Bool
  | [], _ => true
  | _ :: _, [] => false
  | a :: as, b :: bs => a == b && charsLead as bs

/-- Whether `needle` occurs contiguously inside `hay` (character lists):
the Python `needle in hay` test on strings. -/
def charsOccur (needle : List Char) : List Char → Bool
  | [] => charsLead needle []
  | b :: bs => charsLead needle (b :: bs) || charsOccur needle bs

/-- The Python test `needle in hay` on strings. -/
def strOccursIn (needle hay : String) : Bool :=
  charsOccur needle.data hay.data

/-- The filter `sumber_cols = [c for c in df.columns if "ketersediaan_air_minum_sumber" in c]`
(lines 90 and 174 of `app.py`). -/
def sumber_cols (cols : List String) : List String :=
  cols.filter (fun c => strOccursIn "ketersediaan_air_minum_sumber" c)

/-- The mean `df_filtered[col].mean()` over the remapped 0/1 values (line 184 of
`app.py`), with exact rational arithmetic standing in for Python floats.
For an empty frame pandas returns NaN, for which every `> 0.5` comparison
is false; rational division by zero likewise yields `0`, which is not
`> 0.5`, so the comparison behaves identically. -/
def colMean (df : DF) (col : String) : ℚ :=
  ((df.map (fun r => ((mapIndicator (cellOf r col) : Int) : ℚ))).sum) / (df.length : ℚ)

/-- The status `sumber_status[col] = "✅ Ada" if avg > 0.5 else "❌ Tidak Ada"`
(line 185 of `app.py`). -/
def sumberStatus (df : DF) (col : String) : String :=
  if colMean df col > 0.5 then "✅ Ada" else "❌ Tidak Ada"

/-- The four adequate ("layak") source columns hardcoded at lines 192–197
of `app.py`. -/
def layak_cols : List String :=
  [ "ketersediaan_air_minum_sumber_kemasan",
    "ketersediaan_air_minum_sumber_ledeng_meteran",
    "ketersediaan_air_minum_sumber_ledeng_tanpa_meteran",
    "ketersediaan_air_minum_sumber_mata_air" ]

/-- The count `layak_count = sum(1 for col in layak_cols if col in sumber_cols and
df_filtered[col].mean() > 0.5)` (line 198 of `app.py`). -/
def layak_count (cols : List String) (df : DF) : Nat :=
  layak_cols.countP
    (fun col => decide (col ∈ sumber_cols cols) && decide (colMean df col > 0.5))

/-- The three user-facing classification messages of lines 200–205. -/
inductive Verdict where
  | safe       -- "✅ Aman: Semua sumber air layak tersedia. Tidak perlu ditinjau lagi."
  | review     -- "⚠️ Perlu Ditinjau: Hanya 1 sumber air layak tersedia."
  | furtherEval -- "ℹ️ Jumlah sumber air layak: …. Evaluasi lebih lanjut diperlukan."
deriving DecidableEq

/-- The `if layak_count >= 4 / elif layak_count == 1 / else` ladder
(lines 200–205 of `app.py`). -/
def classify (n : Nat) : Verdict :=
  if n ≥ 4 then Verdict.safe
  else if n = 1 then Verdict.review
  else Verdict.furtherEval

/-- Outcome of the rule-based assessment panel after the "Analisis Sumber
Air" button (lines 166–205). -/
inductive AnalysisResult where
  | emptyData            -- "❌ Tidak ada data untuk kabupaten dan kecamatan ini."
  | noSumberCols         -- "Tidak ditemukan kolom sumber air."
  | verdict : Verdict → AnalysisResult
deriving DecidableEq

/-- The rule-based assessment panel body (lines 170–205 of `app.py`):
empty filter result → error; no source columns → warning; otherwise the
per-column statuses are shown and the `layak_count` ladder classifies. -/
def analisisPanel (cols : List String) (df_filtered : DF) : AnalysisResult :=
  if df_filtered.isEmpty then AnalysisResult.emptyData
  else if (sumber_cols cols).isEmpty then AnalysisResult.noSumberCols
  else AnalysisResult.verdict (classify (layak_count cols df_filtered))

/-! ## Visualization panel (lines 58–132 of `app.py`) -/

/-- User-facing UI events the visualization panel can emit, in order. -/
inductive UIEvent where
  | successMsg       -- "✅ Data berhasil diunggah."
  | preview          -- st.dataframe(df.head())
  | errorMissingCol  -- "❌ Kolom bps_nama_kabupaten_kota tidak ditemukan…"
  | warnBig          -- "⚠️ Data besar, hanya menampilkan 1000 titik…"
  | chart (workingSet : DF)  -- subheader + st.plotly_chart over the capped frame
  | mapView          -- st.components.v1.html(m._repr_html_(), …)
  | infoNoCoords     -- "ℹ️ Tidak ada kolom latitude dan longitude…"
  | warnNoSumber     -- "Tidak ditemukan kolom sumber air…"
  | errorProcessing  -- "❌ Terjadi error saat memproses file: …"
deriving DecidableEq

/-- Python exceptions relevant to the panel body: `st.stop()` raises
the Streamlit `StopException` (a subclass of `Exception`), and the call to
the undefined name `plot_simple_map` at line 121 raises `NameError`. -/
inductive PyExc where
  | stop
  | nameError
deriving DecidableEq

/-- The cap `df_filtered = df_filtered.sample(1000) if len > 1000` (lines 85–86 of
`app.py`).  `sampled` stands for the value of `df_filtered.sample(1000)`,
a random 1000-row subset; the theorems assume only its contract
(`sampled.length = 1000`). -/
def capRows (df_filtered : DF) (sampled : DF) : DF :=
  if df_filtered.length > 1000 then sampled else df_filtered

/-- The body of the `try:` block of the visualization panel (lines 68–126
of `app.py`), after a successful `pd.read_csv`: the emitted UI events
paired with the exception the body raises, if any.  `kabupaten` is the
selectbox choice and `sampled` the value `df_filtered.sample(1000)` would
take. -/
def vizBody (cols : List String) (df : DF) (kabupaten : String) (sampled : DF) :
    List UIEvent × Option PyExc :=
  let pre := [UIEvent.successMsg, UIEvent.preview]
  if "bps_nama_kabupaten_kota" ∉ cols then
    (pre ++ [UIEvent.errorMissingCol], some PyExc.stop)
  else
    let df_filtered := df.filter
      (fun r => cellOf r "bps_nama_kabupaten_kota" = Cell.str kabupaten)
    let warn : List UIEvent :=
      if df_filtered.length > 1000 then [UIEvent.warnBig] else []
    let df_capped := capRows df_filtered sampled
    if (sumber_cols cols).isEmpty then
      (pre ++ warn ++ [UIEvent.warnNoSumber], none)
    else if "latitude" ∈ cols ∧ "longitude" ∈ cols then
      -- line 121 calls `plot_simple_map`, which is defined nowhere: NameError
      (pre ++ warn ++ [UIEvent.chart df_capped], some PyExc.nameError)
    else
      (pre ++ warn ++ [UIEvent.chart df_capped, UIEvent.infoNoCoords], none)

/-- The visualization panel with its `except Exception` handler
(lines 128–130 of `app.py`): any exception raised in the body — including
the `StopException` from `st.stop()` — is caught and turned into the
"Terjadi error saat memproses file" error message, so the panel always
terminates normally. -/
def vizPanel (cols : List String) (df : DF) (kabupaten : String) (sampled : DF) :
    List UIEvent :=
  match vizBody cols df kabupaten sampled with
  | (evs, none) => evs
  | (evs, some _) => evs ++ [UIEvent.errorProcessing]

/-! ## ML-inference panel (lines 207–275 of `app.py`) -/

/-- A fitted `LabelEncoder`-like artifact: `transform` of one value and
`inverse_transform` of one class id, each of which may raise (modelled as
`Except`), e.g. on an unseen categorical value. -/
structure Encoder where
  transform : String → Except String Int
  inverseTransform : Int → Except String String

/-- The eight source options of the manual form (lines 212–221). -/
def sumber_air_options : List String :=
  [ "ketersediaan_air_minum_sumber_ledeng_meteran",
    "ketersediaan_air_minum_sumber_ledeng_tanpa_meteran",
    "ketersediaan_air_minum_sumber_sumur",
    "ketersediaan_air_minum_sumber_sumur_bor",
    "ketersediaan_air_minum_sumber_mata_air",
    "ketersediaan_air_minum_sumber_sungai",
    "ketersediaan_air_minum_sumber_hujan",
    "ketersediaan_air_minum_sumber_lainnya" ]

/-- The numeric entries `data_dict[s] = [1 if s in sumber_air else 0]` (lines 240–241). -/
def buildNums (sumber_air : List String) : List Int :=
  sumber_air_options.map (fun s => if s ∈ sumber_air then 1 else 0)

/-- One categorical field of the encode step (lines 244–247): if the
encoder `label_<key>` exists it is applied (and may raise); otherwise the
raw string is left in place. -/
def encodeField (encoders : List (String × Encoder)) (key : String) (v : String) :
    Except String Cell :=
  match encoders.lookup ("label_" ++ key) with
  | some le => (le.transform v).map Cell.num
  | none => Except.ok (Cell.str v)

/-- The encode step for both categorical fields (lines 244–247), outside
any `try`. -/
def encodeStage (encoders : List (String × Encoder)) (kabupaten kecamatan : String) :
    Except String (Cell × Cell) := do
  let a ← encodeField encoders "bps_nama_kabupaten_kota" kabupaten
  let b ← encodeField encoders "bps_nama_kecamatan" kecamatan
  pure (a, b)

/-- The single assembled input row after encode and scale: the two
(possibly encoded) categorical cells and the scaled numeric columns. -/
abbrev PRow := Cell × Cell × List ℚ

/-- The decoding `label = le_target.inverse_transform([label_encoded])[0]` when a
`label_target` encoder exists, else `"ADA" if label_encoded == 1 else
"TIDAK"` (lines 259–263 of `app.py`). -/
def decodeLabel (encoders : List (String × Encoder)) (label_encoded : Int) :
    Except String String :=
  match encoders.lookup "label_target" with
  | some le_target => le_target.inverseTransform label_encoded
  | none => Except.ok (if label_encoded = 1 then "ADA" else "TIDAK")

/-- The specification wording for the same rule: if an encoder keyed
`label_target` exists in the encoder mapping, the label is the inverse
transform by that encoder of the predicted id; otherwise the label is
`ADA` when the predicted id equals 1 and `TIDAK` otherwise. -/
def decodeLabelSpec (encoders : List (String × Encoder)) (id : Int) :
    Except String String :=
  if h : (encoders.lookup "label_target").isSome then
    (Option.get _ h).inverseTransform id
  else
    Except.ok (if id = 1 then "ADA" else "TIDAK")

/-- The `try:` block of lines 255–272: `predict_proba`, `predict`, label
decoding; any raise inside is caught by the `except` at line 273. -/
def tryStage (encoders : List (String × Encoder))
    (predictProba : PRow → Except String ℚ) (predict : PRow → Except String Int)
    (prow : PRow) : Except String (String × ℚ) := do
  let prob ← predictProba prow
  let label_encoded ← predict prow
  let label ← decodeLabel encoders label_encoded
  pure (label, prob)

/-- Outcome of the manual-prediction form submission handler
(lines 231–275 of `app.py`). -/
inductive PredOutcome where
  | errEmptyFields               -- "Harap isi nama kabupaten dan kecamatan."
  | uncaught (e : String)        -- exception propagates out of the panel (no st.error here)
  | caughtError (e : String)     -- "Terjadi kesalahan saat prediksi: …" (st.error in except)
  | success (label : String) (prob : ℚ)  -- "Hasil Prediksi: …"
deriving DecidableEq

/-- The manual-prediction handler (lines 231–275 of `app.py`): empty-field
check, then encode (outside `try`), then scale (outside `try`), then the
`try`-wrapped predict/decode.  `scalerTf` stands for
`scaler.transform(df_input[numerical_cols])`, applied to the eight numeric
columns (line 252), which may raise. -/
def predPanel (encoders : List (String × Encoder))
    (scalerTf : List Int → Except String (List ℚ))
    (predictProba : PRow → Except String ℚ) (predict : PRow → Except String Int)
    (kabupaten kecamatan : String) (sumber_air : List String) : PredOutcome :=
  if kabupaten = "" ∨ kecamatan = "" then PredOutcome.errEmptyFields
  else
    match encodeStage encoders kabupaten kecamatan with
    | Except.error e => PredOutcome.uncaught e
    | Except.ok (a, b) =>
      match scalerTf (buildNums sumber_air) with
      | Except.error e => PredOutcome.uncaught e
      | Except.ok scaled =>
        match tryStage encoders predictProba predict (a, b, scaled) with
        | Except.ok (label, prob) => PredOutcome.success label prob
        | Except.error e => PredOutcome.caughtError e

/-! ## Artifact loader (lines 25–48 of `app.py`) -/

/-- The three artifact files on disk; `none` models a missing or
unreadable file (`joblib.load` raising). `M` and `S` are the opaque
classifier and scaler object types. -/
structure FS (M S : Type) where
  modelFile : Option M
  scalerFile : Option S
  encodersFile : Option (List (String × Encoder))

/-- The artifacts dict `{"model": model, "scaler": scaler, **encoders}`
(line 32). -/
structure Artifacts (M S : Type) where
  model : M
  scaler : S
  encoders : List (String × Encoder)

/-- Outcome of `load_ml_artifacts`: either the loaded artifacts, or
`halted` — the `except` branch showed `st.error` and `st.stop()` ended the
script run (lines 35–37). -/
inductive LoadOutcome (M S : Type) where
  | halted
  | loaded (a : Artifacts M S)

/-- The loader `load_ml_artifacts` (lines 26–37 of `app.py`): three `joblib.load`
calls inside a `try`; any failure leads to `st.error` + `st.stop()`. -/
def load_ml_artifacts {M S : Type} (fs : FS M S) : LoadOutcome M S :=
  match fs.modelFile with
  | none => LoadOutcome.halted
  | some m =>
    match fs.scalerFile with
    | none => LoadOutcome.halted
    | some s =>
      match fs.encodersFile with
      | none => LoadOutcome.halted
      | some e => LoadOutcome.loaded ⟨m, s, e⟩

/-- The `st.cache_resource` memoization (line 25): the process-wide cache is
consulted first; a successful load populates it; a failed load leaves it
empty (Streamlit does not cache raised exceptions).  Returns the outcome
and the new cache state. -/
def loadCached {M S : Type} (fs : FS M S) (cache : Option (Artifacts M S)) :
    LoadOutcome M S × Option (Artifacts M S) :=
  match cache with
  | some a => (LoadOutcome.loaded a, some a)
  | none =>
    match load_ml_artifacts fs with
    | LoadOutcome.halted => (LoadOutcome.halted, none)
    | LoadOutcome.loaded a => (LoadOutcome.loaded a, some a)

/-! ## Helper lemmas and test fixtures -/

/-- Mean of a single-row frame is the remapped value of the cell of that row. -/
theorem colMean_singleton (r : Row) (col : String) :
    colMean [r] col = ((mapIndicator (cellOf r col) : Int) : ℚ) := by
  simp [colMean]

/-- Fixture: one row in which all four adequate columns hold `"ADA"`. -/
def rowAllADA : Row := layak_cols.map (fun c => (c, Cell.str "ADA"))

/-- Fixture: one row in which only the first adequate column holds `"ADA"`
and the other three hold `"TIDAK"`. -/
def rowOneADA : Row :=
  [ ("ketersediaan_air_minum_sumber_kemasan", Cell.str "ADA"),
    ("ketersediaan_air_minum_sumber_ledeng_meteran", Cell.str "TIDAK"),
    ("ketersediaan_air_minum_sumber_ledeng_tanpa_meteran", Cell.str "TIDAK"),
    ("ketersediaan_air_minum_sumber_mata_air", Cell.str "TIDAK") ]

theorem allADA_mean : ∀ col ∈ layak_cols, colMean [rowAllADA] col = 1 := by
  intro col hcol
  rw [colMean_singleton]
  have h : mapIndicator (cellOf rowAllADA col) = 1 := by
    fin_cases hcol <;> decide
  rw [h]
  norm_num

theorem oneADA_mean_kemasan :
    colMean [rowOneADA] "ketersediaan_air_minum_sumber_kemasan" = 1 := by
  rw [colMean_singleton,
    (by decide : mapIndicator (cellOf rowOneADA "ketersediaan_air_minum_sumber_kemasan") = 1)]
  norm_num

theorem oneADA_mean_ledeng_meteran :
    colMean [rowOneADA] "ketersediaan_air_minum_sumber_ledeng_meteran" = 0 := by
  rw [colMean_singleton,
    (by decide :
      mapIndicator (cellOf rowOneADA "ketersediaan_air_minum_sumber_ledeng_meteran") = 0)]
  norm_num

theorem oneADA_mean_ledeng_tanpa :
    colMean [rowOneADA] "ketersediaan_air_minum_sumber_ledeng_tanpa_meteran" = 0 := by
  rw [colMean_singleton,
    (by decide :
      mapIndicator (cellOf rowOneADA "ketersediaan_air_minum_sumber_ledeng_tanpa_meteran") = 0)]
  norm_num

theorem oneADA_mean_mata_air :
    colMean [rowOneADA] "ketersediaan_air_minum_sumber_mata_air" = 0 := by
  rw [colMean_singleton,
    (by decide :
      mapIndicator (cellOf rowOneADA "ketersediaan_air_minum_sumber_mata_air") = 0)]
  norm_num

theorem layak_count_allADA : layak_count layak_cols [rowAllADA] = 4 := by
  simp only [layak_count, layak_cols, List.countP_cons, List.countP_nil,
    Bool.and_eq_true, decide_eq_true_eq]
  norm_num [allADA_mean _ (by decide : "ketersediaan_air_minum_sumber_kemasan" ∈ layak_cols),
    allADA_mean _ (by decide : "ketersediaan_air_minum_sumber_ledeng_meteran" ∈ layak_cols),
    allADA_mean _ (by decide : "ketersediaan_air_minum_sumber_ledeng_tanpa_meteran" ∈ layak_cols),
    allADA_mean _ (by decide : "ketersediaan_air_minum_sumber_mata_air" ∈ layak_cols)]
  decide

theorem layak_count_oneADA : layak_count layak_cols [rowOneADA] = 1 := by
  simp only [layak_count, layak_cols, List.countP_cons, List.countP_nil,
    Bool.and_eq_true, decide_eq_true_eq]
  norm_num [oneADA_mean_kemasan, oneADA_mean_ledeng_meteran, oneADA_mean_ledeng_tanpa,
    oneADA_mean_mata_air]
  decide

/-- On a non-empty frame with at least one source column, the panel
reaches the classification ladder. -/
theorem analisisPanel_eq (cols : List String) (df : DF)
    (h1 : df ≠ []) (h2 : sumber_cols cols ≠ []) :
    analisisPanel cols df = AnalysisResult.verdict (classify (layak_count cols df)) := by
  simp only [analisisPanel, List.isEmpty_iff]
  rw [if_neg h1, if_neg h2]

/-! ## Claim theorems -/

/-- C1: In the rule-based assessment panel, for every non-empty filtered
row subset (with at least one source column present, so that the
classification ladder is reached), the classification is determined by
`layak_count`: `≥ 4` yields the safe message, exactly `1` yields the
needs-review message, and every other value (including `0` and `2`–`3`)
yields the single further-evaluation message.  With all four adequate
columns at mean `1.0` the result is safe; with exactly one at mean `1.0`
the result is needs-review. -/
theorem C1_rule_classification :
    (∀ (cols : List String) (df : DF), df ≠ [] → sumber_cols cols ≠ [] →
      analisisPanel cols df = AnalysisResult.verdict (classify (layak_count cols df)) ∧
      (layak_count cols df ≥ 4 → classify (layak_count cols df) = Verdict.safe) ∧
      (layak_count cols df = 1 → classify (layak_count cols df) = Verdict.review) ∧
      (layak_count cols df < 4 → layak_count cols df ≠ 1 →
        classify (layak_count cols df) = Verdict.furtherEval)) ∧
    analisisPanel layak_cols [rowAllADA] = AnalysisResult.verdict Verdict.safe ∧
    analisisPanel layak_cols [rowOneADA] = AnalysisResult.verdict Verdict.review := by
  have hclassify : ∀ n : Nat,
      (n ≥ 4 → classify n = Verdict.safe) ∧
      (n = 1 → classify n = Verdict.review) ∧
      (n < 4 → n ≠ 1 → classify n = Verdict.furtherEval) := by
    intro n
    refine ⟨fun h => ?_, fun h => ?_, fun h1 h2 => ?_⟩
    · simp [classify, h]
    · simp [classify, h]
    · simp [classify, Nat.not_le.mpr h1, h2]
  have hns : sumber_cols layak_cols ≠ [] := by decide
  refine ⟨fun cols df h1 h2 => ⟨analisisPanel_eq cols df h1 h2, hclassify _⟩, ?_, ?_⟩
  · rw [analisisPanel_eq _ _ (by simp [rowAllADA, layak_cols]) hns, layak_count_allADA]
    decide
  · rw [analisisPanel_eq _ _ (by simp [rowOneADA]) hns, layak_count_oneADA]
    decide

/-- C1 witness: the classification conjuncts instantiated at the concrete
all-`"ADA"` fixture. -/
theorem C1_rule_classification_witness :
    analisisPanel layak_cols [rowAllADA] =
      AnalysisResult.verdict (classify (layak_count layak_cols [rowAllADA])) := by
  exact (C1_rule_classification.1 layak_cols [rowAllADA]
    (by simp [rowAllADA, layak_cols]) (by decide)).1

/-- C6: a column is reported `"✅ Ada"` iff the mean of its coerced 0/1
values over the subset is strictly greater than `0.5`; `layak_count`
equals the number of adequate columns (among those present in the data)
whose mean exceeds `0.5`, and is therefore monotonic in that set. -/
theorem C6_status_iff_mean :
    (∀ (df : DF) (col : String),
      sumberStatus df col = "✅ Ada" ↔ colMean df col > 0.5) ∧
    (∀ (cols : List String) (df : DF),
      layak_count cols df =
        (layak_cols.filter
          (fun c => decide (c ∈ sumber_cols cols) && decide (colMean df c > 0.5))).length) ∧
    (∀ (cols : List String) (df df' : DF),
      (∀ c ∈ layak_cols, colMean df c > 0.5 → colMean df' c > 0.5) →
      layak_count cols df ≤ layak_count cols df') := by
  refine ⟨fun df col => ?_, fun cols df => ?_, fun cols df df' h => ?_⟩
  · unfold sumberStatus
    constructor
    · intro h
      by_contra hm
      rw [if_neg hm] at h
      exact absurd h (by decide)
    · intro hm
      rw [if_pos hm]
  · exact List.countP_eq_length_filter _ _
  · apply List.countP_mono_left
    intro c hc
    simp only [Bool.and_eq_true, decide_eq_true_eq]
    exact fun ⟨hmem, hmean⟩ => ⟨hmem, h c hc hmean⟩

/-- C6 witness: monotonicity instantiated at the one-`"ADA"` and
all-`"ADA"` fixtures. -/
theorem C6_status_iff_mean_witness :
    layak_count layak_cols [rowOneADA] ≤ layak_count layak_cols [rowAllADA] ∧
    (sumberStatus [rowAllADA] "ketersediaan_air_minum_sumber_kemasan" = "✅ Ada" ↔
      colMean [rowAllADA] "ketersediaan_air_minum_sumber_kemasan" > 0.5) := by
  constructor
  · apply C6_status_iff_mean.2.2
    intro c hc _
    rw [allADA_mean c hc]
    norm_num
  · exact C6_status_iff_mean.1 [rowAllADA] "ketersediaan_air_minum_sumber_kemasan"

/-- C10 (implicit): `layak_count` is between `0` and `4`; only adequate
columns actually present in the uploaded column list contribute to it; and
the safe classification (`layak_count ≥ 4`) forces all four adequate
columns to be present in the uploaded data. -/
theorem C10_layak_count_invariant :
    ∀ (cols : List String) (df : DF),
      layak_count cols df ≤ 4 ∧
      layak_count cols df ≤ (layak_cols.filter (fun c => decide (c ∈ cols))).length ∧
      (layak_count cols df ≥ 4 → ∀ c ∈ layak_cols, c ∈ cols) := by
  intro cols df
  have hsub : ∀ c, c ∈ sumber_cols cols → c ∈ cols := by
    intro c hc
    exact (List.mem_filter.mp hc).1
  have hb : layak_count cols df ≤ 4 := by
    unfold layak_count
    exact le_trans (List.countP_le_length _) (by decide)
  refine ⟨hb, ?_, ?_⟩
  · rw [← List.countP_eq_length_filter]
    apply List.countP_mono_left
    intro c _
    simp only [Bool.and_eq_true, decide_eq_true_eq]
    exact fun ⟨hmem, _⟩ => hsub c hmem
  · intro hge c hc
    have hle : layak_count cols df ≤ layak_cols.length := by
      unfold layak_count
      exact List.countP_le_length _
    have hge' : layak_cols.length ≤ layak_count cols df := by
      rw [(by decide : layak_cols.length = 4)]
      exact hge
    have h4 : layak_count cols df = layak_cols.length := le_antisymm hle hge'
    unfold layak_count at h4
    have := List.countP_eq_length.mp h4 c hc
    simp only [Bool.and_eq_true, decide_eq_true_eq] at this
    exact hsub c this.1

/-- C10 witness: the invariant instantiated at the all-`"ADA"` fixture,
where the safe branch is reached. -/
theorem C10_layak_count_invariant_witness :
    layak_count layak_cols [rowAllADA] ≤ 4 ∧
    ("ketersediaan_air_minum_sumber_kemasan" : String) ∈ layak_cols := by
  refine ⟨(C10_layak_count_invariant layak_cols [rowAllADA]).1, ?_⟩
  exact (C10_layak_count_invariant layak_cols [rowAllADA]).2.2
    (by rw [layak_count_allADA]) "ketersediaan_air_minum_sumber_kemasan" (by decide)

/-- C2 (code behaviour at the failing input): the indicator remapping
`map({"ADA": 1, "TIDAK": 0}).fillna(0)` is *not* a no-op on
already-numeric data: the numeric value `1` is not a key of the dict, so
`map` sends it to NaN and `fillna(0)` turns it into `0` — the value
changes from `1` to `0`.  (Numeric `0` coincidentally survives, via
NaN → 0.)  This contradicts the comment of the code itself at line 173, "Map kolom
sumber air ke binary (0/1) jika masih string" — remap only *if still a
string*. -/
theorem C2_numeric_one_not_preserved :
    mapIndicator (Cell.num 1) = 0 ∧ mapIndicator (Cell.num 0) = 0 ∧ (0 : Int) ≠ 1 :=
  ⟨rfl, rfl, by decide⟩

/-- C4: the row cap of the visualization panel.  Whenever the filtered frame
has more than 1000 rows, the working set is `df_filtered.sample(1000)` —
exactly 1000 rows by the sampling contract; with at most 1000 rows the
working set is the input frame unchanged. -/
theorem C4_sampling_cap :
    ∀ (df_filtered sampled : DF),
      (df_filtered.length > 1000 → sampled.length = 1000 →
        (capRows df_filtered sampled).length = 1000) ∧
      (df_filtered.length ≤ 1000 → capRows df_filtered sampled = df_filtered) := by
  intro df_filtered sampled
  constructor
  · intro hgt hs
    rw [capRows, if_pos hgt]
    exact hs
  · intro hle
    rw [capRows, if_neg (Nat.not_lt.mpr hle)]

/-- C4 witness: a 1001-row frame is capped to the 1000-row sample; a
1000-row frame passes through unchanged. -/
theorem C4_sampling_cap_witness :
    (capRows (List.replicate 1001 ([] : Row)) (List.replicate 1000 [])).length = 1000 ∧
    capRows (List.replicate 1000 ([] : Row)) [] = List.replicate 1000 [] := by
  constructor
  · exact (C4_sampling_cap _ _).1 (by rw [List.length_replicate]; norm_num)
      (by rw [List.length_replicate])
  · exact (C4_sampling_cap _ _).2 (by rw [List.length_replicate])

/-- C5: when the uploaded CSV lacks the grouping column
`bps_nama_kabupaten_kota`, the visualization panel reports the
missing-column error and stops rendering: no chart event is emitted, and
because the `StopException` from `st.stop()` is itself caught by the
`except Exception` handler (which adds a processing-error message), the
panel always terminates normally — never an uncaught crash. -/
theorem C5_missing_column_shortcircuit :
    ∀ (cols : List String) (df : DF) (kabupaten : String) (sampled : DF),
      "bps_nama_kabupaten_kota" ∉ cols →
      vizPanel cols df kabupaten sampled =
        [UIEvent.successMsg, UIEvent.preview, UIEvent.errorMissingCol,
          UIEvent.errorProcessing] ∧
      (∀ ws : DF, UIEvent.chart ws ∉ vizPanel cols df kabupaten sampled) := by
  intro cols df kabupaten sampled h
  have hbody : vizBody cols df kabupaten sampled =
      ([UIEvent.successMsg, UIEvent.preview, UIEvent.errorMissingCol], some PyExc.stop) := by
    unfold vizBody
    rw [if_pos h]
    rfl
  have hpanel : vizPanel cols df kabupaten sampled =
      [UIEvent.successMsg, UIEvent.preview, UIEvent.errorMissingCol,
        UIEvent.errorProcessing] := by
    unfold vizPanel
    rw [hbody]
    rfl
  refine ⟨hpanel, fun ws => ?_⟩
  rw [hpanel]
  simp

/-- C5 witness: the short-circuit at a concrete upload whose only column
is `"x"`. -/
theorem C5_missing_column_shortcircuit_witness :
    vizPanel ["x"] [] "" [] =
      [UIEvent.successMsg, UIEvent.preview, UIEvent.errorMissingCol,
        UIEvent.errorProcessing] := by
  exact (C5_missing_column_shortcircuit ["x"] [] "" [] (by decide)).1

/-- C7: every indicator value other than the literal strings `"ADA"` and
`"TIDAK"` — malformed strings, numbers, missing values — is remapped to
`0` (absent) by the shared `map({"ADA":1,"TIDAK":0}).fillna(0)` step of
both the visualization and the rule-based assessment panel, and no error
is raised: `mapIndicator` is a total function. -/
theorem C7_malformed_silent_degradation :
    ∀ c : Cell, c ≠ Cell.str "ADA" → c ≠ Cell.str "TIDAK" → mapIndicator c = 0 := by
  intro c h1 h2
  unfold mapIndicator
  split
  · exact absurd rfl h1
  · rfl
  · rfl

/-- C7 witness: a malformed string value and a NaN are both read as
absent. -/
theorem C7_malformed_silent_degradation_witness :
    mapIndicator (Cell.str "RUSAK") = 0 ∧ mapIndicator Cell.na = 0 := by
  constructor
  · exact C7_malformed_silent_degradation (Cell.str "RUSAK") (by decide) (by decide)
  · exact C7_malformed_silent_degradation Cell.na (by decide) (by decide)

/-- Fixture: an encoder that raises on every input, e.g. a fitted
`LabelEncoder` given an unseen categorical value. -/
def failingEncoder : Encoder :=
  ⟨fun _ => Except.error "unseen label", fun _ => Except.error "unseen id"⟩

/-- Fixture: a scaler that succeeds, returning the inputs as rationals. -/
def okScaler : List Int → Except String (List ℚ) :=
  fun ns => Except.ok (ns.map (fun n => (n : ℚ)))

/-- Fixture: a `predict_proba` that succeeds with probability `1/2`. -/
def okProba : PRow → Except String ℚ := fun _ => Except.ok (1 / 2)

/-- Fixture: a `predict_proba` that raises. -/
def failProba : PRow → Except String ℚ := fun _ => Except.error "proba failed"

/-- Fixture: a `predict` that succeeds with class id `1`. -/
def okPredict : PRow → Except String Int := fun _ => Except.ok 1

/-- C3 counterexample: with a fitted kabupaten encoder that raises on an
unseen value, the failure happens in the encode step — *outside* the
`try` of lines 254–275 — so the exception propagates out of the panel
uncaught rather than being surfaced by the `st.error` of the panel: the claim
that every encode/scale/predict failure is caught is false. -/
theorem C3_counterexample_encode_uncaught :
    predPanel [("label_bps_nama_kabupaten_kota", failingEncoder)] okScaler okProba okPredict
        "Kabupaten Bogor" "Gunung Putri" [] = PredOutcome.uncaught "unseen label" ∧
    predPanel [("label_bps_nama_kabupaten_kota", failingEncoder)] okScaler okProba okPredict
        "Kabupaten Bogor" "Gunung Putri" [] ≠ PredOutcome.caughtError "unseen label" := by
  constructor
  · rfl
  · intro h
    exact absurd (rfl.trans h) (by decide)

/-- C3 (amended): only failures raised inside the `try:` of lines 254–275
(`predict_proba`, `predict`, label decoding) are caught and surfaced as
the user-facing error of the panel, with no fallback prediction; failures in
the encode step (lines 244–247) or the scale step (line 252) happen
before the `try` and propagate out of the panel uncaught. -/
theorem C3_try_scope :
    ∀ (encoders : List (String × Encoder)) (scalerTf : List Int → Except String (List ℚ))
      (predictProba : PRow → Except String ℚ) (predict : PRow → Except String Int)
      (kab kec : String) (srcs : List String),
      ¬(kab = "" ∨ kec = "") →
      (∀ e, encodeStage encoders kab kec = Except.error e →
        predPanel encoders scalerTf predictProba predict kab kec srcs =
          PredOutcome.uncaught e) ∧
      (∀ e a b, encodeStage encoders kab kec = Except.ok (a, b) →
        scalerTf (buildNums srcs) = Except.error e →
        predPanel encoders scalerTf predictProba predict kab kec srcs =
          PredOutcome.uncaught e) ∧
      (∀ e a b scaled, encodeStage encoders kab kec = Except.ok (a, b) →
        scalerTf (buildNums srcs) = Except.ok scaled →
        tryStage encoders predictProba predict (a, b, scaled) = Except.error e →
        predPanel encoders scalerTf predictProba predict kab kec srcs =
          PredOutcome.caughtError e ∧
        ∀ l p, predPanel encoders scalerTf predictProba predict kab kec srcs ≠
          PredOutcome.success l p) := by
  intro encoders scalerTf predictProba predict kab kec srcs hne
  refine ⟨fun e he => ?_, fun e a b ha hs => ?_, fun e a b scaled ha hs ht => ?_⟩
  · unfold predPanel
    rw [if_neg hne, he]
  · unfold predPanel
    rw [if_neg hne, ha]
    simp only [hs]
  · have hp : predPanel encoders scalerTf predictProba predict kab kec srcs =
        PredOutcome.caughtError e := by
      unfold predPanel
      rw [if_neg hne, ha]
      simp only [hs, ht]
    exact ⟨hp, fun l p h => by rw [hp] at h; exact absurd h (by simp)⟩

/-- C3 witness: with no label encoders and a working scaler, a raise
inside `predict_proba` is caught and reported as the prediction
error. -/
theorem C3_try_scope_witness :
    predPanel [] okScaler failProba okPredict "Kabupaten Bogor" "Gunung Putri" [] =
      PredOutcome.caughtError "proba failed" := by
  exact ((C3_try_scope [] okScaler failProba okPredict "Kabupaten Bogor" "Gunung Putri" []
    (by simp)).2.2 "proba failed" (Cell.str "Kabupaten Bogor") (Cell.str "Gunung Putri")
    ((buildNums []).map (fun n => (n : ℚ))) rfl rfl rfl).1

/-- C8: the artifact loader is memoized — with a populated process-wide
cache the artifacts are returned as-is, with no file access; and when any
of the three artifact files is missing or unreadable, the load halts the
session (`st.error` + `st.stop()`), producing no artifacts, caching
nothing, with no partial degradation; a successful first load populates
the cache for the rest of the process. -/
theorem C8_artifact_loader :
    ∀ {M S : Type} (fs : FS M S) (a : Artifacts M S),
      loadCached fs (some a) = (LoadOutcome.loaded a, some a) ∧
      ((fs.modelFile = none ∨ fs.scalerFile = none ∨ fs.encodersFile = none) →
        loadCached fs none = (LoadOutcome.halted, none)) ∧
      (∀ a0, load_ml_artifacts fs = LoadOutcome.loaded a0 →
        loadCached fs none = (LoadOutcome.loaded a0, some a0)) := by
  intro M S fs a
  refine ⟨rfl, fun h => ?_, fun a0 h0 => ?_⟩
  · have hh : load_ml_artifacts fs = LoadOutcome.halted := by
      unfold load_ml_artifacts
      rcases h with h | h | h
      · rw [h]
      · cases hm : fs.modelFile with
        | none => rfl
        | some m => rw [h]
      · cases hm : fs.modelFile with
        | none => rfl
        | some m =>
          cases hs : fs.scalerFile with
          | none => rfl
          | some s => rw [h]
    unfold loadCached
    rw [hh]
  · unfold loadCached
    rw [h0]

/-- C8 witness: a missing `model.pkl` halts; a populated cache is
returned unchanged. -/
theorem C8_artifact_loader_witness :
    loadCached (FS.mk none (some 0) (some []) : FS Nat Nat) none =
      (LoadOutcome.halted, none) ∧
    loadCached (FS.mk none (some 0) (some []) : FS Nat Nat)
        (some (Artifacts.mk 1 2 [])) =
      (LoadOutcome.loaded (Artifacts.mk 1 2 []), some (Artifacts.mk 1 2 [])) := by
  constructor
  · exact (C8_artifact_loader (FS.mk none (some 0) (some [])) (Artifacts.mk 1 2 [])).2.1
      (Or.inl rfl)
  · exact (C8_artifact_loader (FS.mk none (some 0) (some [])) (Artifacts.mk 1 2 [])).1

/-- C9: the reported label is the inverse transform of the predicted
class id through the `label_target` encoder when that encoder exists, and
the fixed `1 → "ADA" / _ → "TIDAK"` fallback otherwise; the decoding in
the source coincides with the description of it in the specification. -/
theorem C9_label_decoding :
    ∀ (encoders : List (String × Encoder)) (id : Int),
      decodeLabel encoders id = decodeLabelSpec encoders id ∧
      (∀ le, encoders.lookup "label_target" = some le →
        decodeLabel encoders id = le.inverseTransform id) ∧
      (encoders.lookup "label_target" = none →
        decodeLabel encoders id = Except.ok (if id = 1 then "ADA" else "TIDAK")) := by
  intro encoders id
  refine ⟨?_, fun le hle => ?_, fun hnone => ?_⟩
  · unfold decodeLabel decodeLabelSpec
    cases h : encoders.lookup "label_target" with
    | none => simp [h]
    | some le => simp [h]
  · unfold decodeLabel
    rw [hle]
  · unfold decodeLabel
    rw [hnone]

/-- Fixture: an inverse-transform-only target encoder mapping `1 ↦ "ADA"`
and everything else to `"TIDAK"`. -/
def targetEncoder : Encoder :=
  ⟨fun _ => Except.error "transform unused",
   fun n => Except.ok (if n = 1 then "ADA" else "TIDAK")⟩

/-- C9 witness: decoding through a present `label_target` encoder, and
the fallback when no encoder is present. -/
theorem C9_label_decoding_witness :
    decodeLabel [("label_target", targetEncoder)] 1 =
      targetEncoder.inverseTransform 1 ∧
    decodeLabel [] 0 = Except.ok "TIDAK" := by
  constructor
  · exact (C9_label_decoding [("label_target", targetEncoder)] 1).2.1 targetEncoder rfl
  · exact ((C9_label_decoding [] 0).2.2 rfl).trans (by norm_num)
